import Mathlib

/-!
Verification of the `geo` coordinate-conversion library (pault.ag/go/geo).

The Go source works on `float64`; we embed it shallowly over `ℝ`, translating
each function from `types.go` and `haversine.go` literally (same intermediate
variables, same order of operations up to real-number semantics).  The Go
function `math.Atan2` is modelled by `atan2` below, matching its sign
conventions on the axes (`atan2 0 0 = 0`, `atan2 0 x = π` for `x < 0`, ...).
-/

noncomputable section

namespace Geo

/-- Meters, an SI length.  In Go this is a named `float64` type. -/
abbrev Meters := ℝ

/-- Degrees, an angular measurement.  In Go this is a named `float64` type. -/
abbrev Degrees := ℝ

/-- Radians, an angular measurement.  In Go this is a named `float64` type. -/
abbrev Radians := ℝ

/-- Model of Go `math.Atan2 y x`: the angle of the point `(x, y)`. -/
def atan2 (y x : ℝ) : ℝ :=
  if 0 < x then Real.arctan (y / x)
  else if x < 0 then
    if 0 ≤ y then Real.arctan (y / x) + Real.pi
    else Real.arctan (y / x) - Real.pi
  else
    if 0 < y then Real.pi / 2
    else if y < 0 then -(Real.pi / 2)
    else 0

/-- `Degrees.Radians` from types.go: `Radians(math.Pi / 180 * d)`. -/
def Degrees.Radians (d : Degrees) : Radians := Real.pi / 180 * d

/-- `Radians.Degrees` from types.go: `Degrees(180 / math.Pi * r)`. -/
def Radians.Degrees (r : Radians) : Degrees := 180 / Real.pi * r

/-- `AER` from types.go: an Azimuth, Elevation, Range measurement. -/
@[ext]
structure AER where
  Azimuth : Degrees
  Elevation : Degrees
  Range : Meters

/-- `LLA` from types.go: Latitude, Longitude, Altitude. -/
@[ext]
structure LLA where
  Latitude : Degrees
  Longitude : Degrees
  Altitude : Meters

/-- `XYZ` from types.go: earth-centered cartesian coordinates. -/
@[ext]
structure XYZ where
  X : Meters
  Y : Meters
  Z : Meters

/-- `ENU` from types.go: East, North, Up in the local tangent plane. -/
@[ext]
structure ENU where
  East : Meters
  North : Meters
  Up : Meters

/-- `AER.ENU` from types.go, transcribed with its own local names. -/
def AER.ENU (aed : AER) : ENU :=
  let sinTheta := Real.sin (Degrees.Radians aed.Elevation)
  let cosTheta := Real.cos (Degrees.Radians aed.Elevation)
  let sinPhi := Real.sin (Degrees.Radians aed.Azimuth)
  let cosPhi := Real.cos (Degrees.Radians aed.Azimuth)
  { East := aed.Range * (sinPhi * cosTheta)
    North := aed.Range * (cosPhi * sinTheta)
    Up := aed.Range * sinTheta }

/-- `ENU.AER` from types.go.  Note the source stores the raw `math.Atan2`
results (radian values) in the `Degrees`-typed fields without conversion. -/
def ENU.AER (enu : ENU) : AER :=
  let r := Real.sqrt (enu.East * enu.East + enu.North * enu.North)
  { Azimuth := atan2 enu.East enu.North
    Elevation := atan2 enu.Up r
    Range := Real.sqrt (r * r + enu.Up * enu.Up) }

/-- `wgs84A` from types.go: earth semimajor axis in meters. -/
def wgs84A : ℝ := 6378137.0

/-- `wgs84B` from types.go: earth semiminor axis in meters. -/
def wgs84B : ℝ := 6356752.314245

/-- `wgs84F` from types.go: ellipsoid flatness. -/
def wgs84F : ℝ := (wgs84A - wgs84B) / wgs84A

/-- `wgs84ESq` from types.go: eccentricity squared. -/
def wgs84ESq : ℝ := wgs84F * (2 - wgs84F)

/-- `wgs84.LLAToXYZ` from types.go (its internal names call the latitude
`lambda` and the longitude `phi`; we keep that). -/
def wgs84.LLAToXYZ (l : LLA) : XYZ :=
  let lambda := Degrees.Radians l.Latitude
  let phi := Degrees.Radians l.Longitude
  let sinLambda := Real.sin lambda
  let cosLambda := Real.cos lambda
  let sinPhi := Real.sin phi
  let cosPhi := Real.cos phi
  let n := wgs84A / Real.sqrt (1 - wgs84ESq * sinLambda * sinLambda)
  { X := (l.Altitude + n) * cosLambda * cosPhi
    Y := (l.Altitude + n) * cosLambda * sinPhi
    Z := (l.Altitude + (1 - wgs84ESq) * n) * sinLambda }

/-- `wgs84.XYZToENU` from types.go. -/
def wgs84.XYZToENU (ref : LLA) (e : XYZ) : ENU :=
  let lambda := Degrees.Radians ref.Latitude
  let phi := Degrees.Radians ref.Longitude
  let sinLambda := Real.sin lambda
  let cosLambda := Real.cos lambda
  let sinPhi := Real.sin phi
  let cosPhi := Real.cos phi
  let xref := wgs84.LLAToXYZ ref
  let xd := e.X - xref.X
  let yd := e.Y - xref.Y
  let zd := e.Z - xref.Z
  { East := -sinPhi * xd + cosPhi * yd
    North := -cosPhi * sinLambda * xd - sinLambda * sinPhi * yd + cosLambda * zd
    Up := cosLambda * cosPhi * xd + cosLambda * sinPhi * yd + sinLambda * zd }

/-- `wgs84.LLAToENU` from types.go. -/
def wgs84.LLAToENU (ref lla : LLA) : ENU :=
  wgs84.XYZToENU ref (wgs84.LLAToXYZ lla)

/-- `earthRadiusMeters` from haversine.go. -/
def earthRadiusMeters : ℝ := 6371000

/-- `HaversineDistance` from haversine.go.  The Go return pair `(Meters, error)` is
modelled as a pair of the meters value and an optional error message. -/
def HaversineDistance (origin position : LLA) : Meters × Option String :=
  if origin.Altitude ≠ 0 ∨ position.Altitude ≠ 0 then
    (0, some "geo.HaversineDistance: Altitude must be 0")
  else
    let originLon := Degrees.Radians origin.Longitude
    let originLat := Degrees.Radians origin.Latitude
    let positionLon := Degrees.Radians position.Longitude
    let positionLat := Degrees.Radians position.Latitude
    let deltaLon := originLon - positionLon
    let deltaLat := originLat - positionLat
    let a := Real.sin (deltaLat / 2) ^ 2 +
      Real.cos originLat * Real.cos positionLat * Real.sin (deltaLon / 2) ^ 2
    let c := 2 * atan2 (Real.sqrt a) (Real.sqrt (1 - a))
    (earthRadiusMeters * c, none)

/-- The haversine distance as §4.4 of the spec words it, for comparing with
the implementation: `R·c` with `a = sin²(Δlat/2) + cos(lat1)·cos(lat2)·sin²(Δlon/2)`
and `c = 2·atan2(√a, √(1−a))`, `R = 6371000`. -/
def specHaversineFormula (origin position : LLA) : ℝ :=
  let lat1 := Degrees.Radians origin.Latitude
  let lat2 := Degrees.Radians position.Latitude
  let dLat := lat1 - Degrees.Radians position.Latitude
  let dLon := Degrees.Radians origin.Longitude - Degrees.Radians position.Longitude
  let a := Real.sin (dLat / 2) ^ 2 + Real.cos lat1 * Real.cos lat2 * Real.sin (dLon / 2) ^ 2
  6371000 * (2 * atan2 (Real.sqrt a) (Real.sqrt (1 - a)))

end Geo

namespace Geo

/-! ### Basic atan2 facts -/

lemma atan2_of_pos (y x : ℝ) (hx : 0 < x) : atan2 y x = Real.arctan (y / x) := by
  simp [atan2, hx]

lemma atan2_zero_of_pos (x : ℝ) (hx : 0 < x) : atan2 0 x = 0 := by
  simp [atan2_of_pos 0 x hx]

lemma atan2_zero_zero : atan2 0 0 = 0 := by
  simp [atan2]

lemma atan2_of_pos_zero (y : ℝ) (hy : 0 < y) : atan2 y 0 = Real.pi / 2 := by
  simp [atan2, hy]

lemma radians_degrees_inv (x : ℝ) : Radians.Degrees (Degrees.Radians x) = x := by
  unfold Radians.Degrees Degrees.Radians
  field_simp
  ring

lemma degrees_radians_inv (x : ℝ) : Degrees.Radians (Radians.Degrees x) = x := by
  unfold Radians.Degrees Degrees.Radians
  field_simp
  ring

/-- Claim C9: converting Degrees to Radians (multiply by π/180) and back
(multiply by 180/π) reproduces the input; over real arithmetic the two maps
are exactly mutually inverse. -/
theorem degrees_radians_roundtrip (x : ℝ) :
    Radians.Degrees (Degrees.Radians x) = x ∧ Degrees.Radians (Radians.Degrees x) = x :=
  ⟨radians_degrees_inv x, degrees_radians_inv x⟩

/-- Claim C3: `HaversineDistance` returns an error exactly when one of the two
altitudes is nonzero (so also at a self-distance with nonzero altitude, and
never when both altitudes are zero). -/
theorem haversine_error_iff (o p : LLA) :
    (HaversineDistance o p).2 ≠ none ↔ (o.Altitude ≠ 0 ∨ p.Altitude ≠ 0) := by
  by_cases h : o.Altitude ≠ 0 ∨ p.Altitude ≠ 0 <;> simp [HaversineDistance, h]

/-- Claim C10: whenever `HaversineDistance` reports an error, the meters
component it returns alongside is exactly 0. -/
theorem haversine_error_returns_zero (o p : LLA)
    (h : (HaversineDistance o p).2 ≠ none) : (HaversineDistance o p).1 = 0 := by
  by_cases hc : o.Altitude ≠ 0 ∨ p.Altitude ≠ 0
  · simp [HaversineDistance, hc]
  · exact absurd (by simp [HaversineDistance, hc]) h

theorem haversine_error_returns_zero_witness :
    (HaversineDistance ⟨0, 0, 1⟩ ⟨0, 0, 0⟩).1 = 0 :=
  haversine_error_returns_zero ⟨0, 0, 1⟩ ⟨0, 0, 0⟩ (by simp [HaversineDistance])

/-- The prime-vertical radius of curvature as §4.3 of the spec words it:
`N = a / sqrt(1 − e²·sin²(lat))` with `a = 6378137.0`, `b = 6356752.314245`,
`f = (a−b)/a` and `e² = f·(2−f)`. -/
def specPrimeVertical (lat : ℝ) : ℝ :=
  6378137.0 /
    Real.sqrt (1 - ((6378137.0 - 6356752.314245) / 6378137.0) *
      (2 - (6378137.0 - 6356752.314245) / 6378137.0) * Real.sin lat ^ 2)

lemma specESq_eq : ((6378137.0 - 6356752.314245) / 6378137.0) *
    (2 - (6378137.0 - 6356752.314245) / 6378137.0) = wgs84ESq := by
  simp [wgs84ESq, wgs84F, wgs84A, wgs84B]

/-- Claim C5: `wgs84.LLAToXYZ` computes exactly the geodetic-to-Cartesian transform of the spec:
transform, X = (alt+N)·cos(lat)·cos(lon), Y = (alt+N)·cos(lat)·sin(lon),
Z = (alt+(1−e²)·N)·sin(lat), with the WGS84 constants of the spec (despite the
implementation calling the latitude `lambda` and the longitude `phi`). -/
theorem lla_to_xyz_formula (l : LLA) :
    (wgs84.LLAToXYZ l).X =
      (l.Altitude + specPrimeVertical (Degrees.Radians l.Latitude)) *
        Real.cos (Degrees.Radians l.Latitude) * Real.cos (Degrees.Radians l.Longitude) ∧
    (wgs84.LLAToXYZ l).Y =
      (l.Altitude + specPrimeVertical (Degrees.Radians l.Latitude)) *
        Real.cos (Degrees.Radians l.Latitude) * Real.sin (Degrees.Radians l.Longitude) ∧
    (wgs84.LLAToXYZ l).Z =
      (l.Altitude + (1 - ((6378137.0 - 6356752.314245) / 6378137.0) *
          (2 - (6378137.0 - 6356752.314245) / 6378137.0)) *
          specPrimeVertical (Degrees.Radians l.Latitude)) *
        Real.sin (Degrees.Radians l.Latitude) := by
  have harg : ∀ s : ℝ, (1 : ℝ) - ((6378137.0 - 6356752.314245) / 6378137.0) *
      (2 - (6378137.0 - 6356752.314245) / 6378137.0) * s ^ 2 = 1 - wgs84ESq * s * s := by
    intro s
    rw [← specESq_eq]
    ring
  have hN : ∀ lat : ℝ, specPrimeVertical lat =
      wgs84A / Real.sqrt (1 - wgs84ESq * Real.sin lat * Real.sin lat) := by
    intro lat
    unfold specPrimeVertical
    rw [harg (Real.sin lat)]
    rfl
  refine ⟨?_, ?_, ?_⟩ <;>
    simp only [wgs84.LLAToXYZ, hN, specESq_eq]

/-- Equality of `HaversineDistance` with the formula of the spec on the non-error
branch; shared by the C6 and C7 theorems. -/
lemma haversineDistance_of_alt_zero (o p : LLA) (ho : o.Altitude = 0) (hp : p.Altitude = 0) :
    HaversineDistance o p = (specHaversineFormula o p, none) := by
  have hcond : ¬(o.Altitude ≠ 0 ∨ p.Altitude ≠ 0) := by simp [ho, hp]
  unfold HaversineDistance specHaversineFormula earthRadiusMeters
  rw [if_neg hcond]

lemma sin_half_sq_symm (x y : ℝ) : Real.sin ((x - y) / 2) ^ 2 = Real.sin ((y - x) / 2) ^ 2 := by
  rw [show (x - y) / 2 = -((y - x) / 2) by ring, Real.sin_neg]
  ring

lemma spec_formula_symm (o p : LLA) : specHaversineFormula o p = specHaversineFormula p o := by
  have ha : Real.sin ((Degrees.Radians o.Latitude - Degrees.Radians p.Latitude) / 2) ^ 2 +
      Real.cos (Degrees.Radians o.Latitude) * Real.cos (Degrees.Radians p.Latitude) *
        Real.sin ((Degrees.Radians o.Longitude - Degrees.Radians p.Longitude) / 2) ^ 2 =
      Real.sin ((Degrees.Radians p.Latitude - Degrees.Radians o.Latitude) / 2) ^ 2 +
      Real.cos (Degrees.Radians p.Latitude) * Real.cos (Degrees.Radians o.Latitude) *
        Real.sin ((Degrees.Radians p.Longitude - Degrees.Radians o.Longitude) / 2) ^ 2 := by
    rw [sin_half_sq_symm (Degrees.Radians o.Latitude) (Degrees.Radians p.Latitude),
      sin_half_sq_symm (Degrees.Radians o.Longitude) (Degrees.Radians p.Longitude)]
    ring
  simp only [specHaversineFormula]
  rw [ha]

lemma spec_formula_self (A : LLA) : specHaversineFormula A A = 0 := by
  have h1 : atan2 0 1 = 0 := atan2_zero_of_pos 1 one_pos
  simp [specHaversineFormula, sub_self, Real.sqrt_one, h1]

/-- Claim C6: on zero-altitude inputs `HaversineDistance` returns exactly `R·c`
with `R = 6371000`, `a = sin²(Δlat/2) + cos(lat1)·cos(lat2)·sin²(Δlon/2)` and
`c = 2·atan2(√a, √(1−a))` over the radian differences, and no error. -/
theorem haversine_formula (o p : LLA) (ho : o.Altitude = 0) (hp : p.Altitude = 0) :
    HaversineDistance o p = (specHaversineFormula o p, none) :=
  haversineDistance_of_alt_zero o p ho hp

theorem haversine_formula_witness :
    HaversineDistance ⟨0, 0, 0⟩ ⟨0, 0, 0⟩ = (specHaversineFormula ⟨0, 0, 0⟩ ⟨0, 0, 0⟩, none) :=
  haversine_formula ⟨0, 0, 0⟩ ⟨0, 0, 0⟩ rfl rfl

/-- Claim C7: for zero-altitude points the haversine distance is symmetric, and
the self-distance is exactly 0 with no error. -/
theorem haversine_symm_self (A B : LLA) (hA : A.Altitude = 0) (hB : B.Altitude = 0) :
    HaversineDistance A B = HaversineDistance B A ∧
    HaversineDistance A A = (0, none) := by
  refine ⟨?_, ?_⟩
  · rw [haversineDistance_of_alt_zero A B hA hB, haversineDistance_of_alt_zero B A hB hA,
      spec_formula_symm]
  · rw [haversineDistance_of_alt_zero A A hA hA, spec_formula_self]

theorem haversine_symm_self_witness :
    (HaversineDistance ⟨1, 2, 0⟩ ⟨3, 4, 0⟩ = HaversineDistance ⟨3, 4, 0⟩ ⟨1, 2, 0⟩) ∧
    HaversineDistance ⟨1, 2, 0⟩ ⟨1, 2, 0⟩ = (0, none) :=
  haversine_symm_self ⟨1, 2, 0⟩ ⟨3, 4, 0⟩ rfl rfl

/-- Claim C8: `AER.ENU` computes exactly East = R·sin(Az)·cos(El),
North = R·cos(Az)·sin(El), Up = R·sin(El), with Az, El converted from degrees
to radians — the non-textbook pairing of the source: of azimuth into East and
sin(Elevation) into North. -/
theorem aer_enu_formula (a : AER) :
    (AER.ENU a).East =
        a.Range * Real.sin (Degrees.Radians a.Azimuth) * Real.cos (Degrees.Radians a.Elevation) ∧
    (AER.ENU a).North =
        a.Range * Real.cos (Degrees.Radians a.Azimuth) * Real.sin (Degrees.Radians a.Elevation) ∧
    (AER.ENU a).Up = a.Range * Real.sin (Degrees.Radians a.Elevation) := by
  refine ⟨?_, ?_, ?_⟩ <;> · simp only [AER.ENU]; try ring

/-- Claim C2 (refuted, code bug): `ENU.AER` is supposed to return the atan2
angles expressed in degrees, but the source casts the raw radian result of
`math.Atan2` into the `Degrees` type without converting.  At East 1, North 1, Up 0 the
returned Azimuth is π/4 ≈ 0.785, not the 45 required by the claim (the degree
expression of atan2(1,1)). -/
theorem enu_aer_angles_left_in_radians :
    (ENU.AER ⟨1, 1, 0⟩).Azimuth = Real.pi / 4 ∧
    (ENU.AER ⟨1, 1, 0⟩).Azimuth ≠ Radians.Degrees (atan2 1 1) := by
  have h1 : atan2 (1 : ℝ) 1 = Real.pi / 4 := by
    rw [atan2_of_pos 1 1 one_pos]
    norm_num [Real.arctan_one]
  have hfield : (ENU.AER ⟨1, 1, 0⟩).Azimuth = atan2 1 1 := by
    simp only [ENU.AER]
  have h2 : Radians.Degrees (atan2 1 1) = 45 := by
    rw [h1]
    unfold Radians.Degrees
    field_simp
    ring
  refine ⟨hfield.trans h1, ?_⟩
  rw [hfield, h2, h1]
  have hpi := Real.pi_lt_d2
  intro hcontra
  nlinarith

/-- Claim C1 (refuted, code bug): the ENU → AER → ENU round trip does not
reproduce nonzero-range inputs within relative error 1e-6.  At East 0, North 0, Up 1
the radians-stored-as-Degrees slip in `ENU.AER` makes `AER.ENU` scale the π/2
elevation by a further π/180, so the returned Up is sin(π²/360) ≈ 0.0274
instead of 1.  The round-trip test input East 10, North 20, Up 30 shipped
with the source fails the same way. -/
theorem enu_aer_roundtrip_fails :
    (AER.ENU (ENU.AER ⟨0, 0, 1⟩)).Up = Real.sin (Real.pi ^ 2 / 360) ∧
    ¬ |(AER.ENU (ENU.AER ⟨0, 0, 1⟩)).Up - 1| ≤ 1e-6 * |(1 : ℝ)| := by
  have hr0 : Real.sqrt ((0 : ℝ) * 0 + 0 * 0) = 0 := by norm_num
  have hstep : ENU.AER ⟨0, 0, 1⟩ = ⟨0, Real.pi / 2, 1⟩ := by
    simp only [ENU.AER, hr0]
    refine AER.ext ?_ ?_ ?_ <;> norm_num [atan2_zero_zero, atan2_of_pos_zero 1 one_pos]
  have hup : (AER.ENU (ENU.AER ⟨0, 0, 1⟩)).Up = Real.sin (Real.pi ^ 2 / 360) := by
    rw [hstep]
    simp only [AER.ENU, Degrees.Radians]
    rw [show Real.pi / 180 * (Real.pi / 2) = Real.pi ^ 2 / 360 by ring]
    norm_num
  refine ⟨hup, ?_⟩
  rw [hup, abs_one, mul_one, abs_sub_comm,
    abs_of_nonneg (by nlinarith [Real.sin_le_one (Real.pi ^ 2 / 360)] :
      (0 : ℝ) ≤ 1 - Real.sin (Real.pi ^ 2 / 360))]
  rw [not_le]
  have hs := Real.sin_lt (show (0 : ℝ) < Real.pi ^ 2 / 360 by positivity)
  nlinarith [Real.pi_lt_d2, Real.pi_pos]

/-! ### WGS84 round trip (C4) -/

end Geo
